import Mathlib

/-!
Shallow embedding of the Mindful Mornings application (model.py and
server.py): the relational data model, and the request handlers the
claims refer to (show_index, execute_user_registration,
check_login_credentials, log_out_user, task_list, add_new_task,
delete_task_from_task_list, update_user_setting,
show_user_tasks_and_gameplan, delete_task_from_gameplan).

Database tables are lists of rows; autoincrement primary keys are modeled
by next-id counters in the database state.  The Flask session entry
session user is an Option Nat.  Python exceptions that a handler can
raise or catch are the constructors of PyError; a handler returns the
resulting database state, the list of flashed messages, and either a
response or a propagated exception.
-/

namespace MindfulMornings

/-- Row of the users table (model.py, class User): user_id is the
autoincrement primary key; username and password are required;
home_address and destination_address are optional. -/
structure User where
  user_id : Nat
  username : String
  password : String
  home_address : Option String := none
  destination_address : Option String := none
deriving Repr, DecidableEq

/-- Row of the settings table (model.py, class Setting): only two columns,
setting_id (autoincrement primary key) and setting_name (nullable,
unique).  The class declares no other column. -/
structure Setting where
  setting_id : Nat
  setting_name : Option String := none
deriving Repr, DecidableEq

/-- Row of the users_settings table (model.py, class UserSetting).  The
value column is declared nullable=False; it is modeled as Option String
because the ORM attribute of a loaded row can still be assigned the
Python value None by handler code, and the declared constraint is stated
separately as UserSetting.valueNonNull. -/
structure UserSetting where
  user_setting_id : Nat
  user_id : Nat
  setting_id : Nat
  value : Option String
deriving Repr, DecidableEq

/-- The nullable=False declaration on the value column of users_settings
(model.py line 76): a row satisfies it when its value is not None. -/
def UserSetting.valueNonNull (s : UserSetting) : Prop := s.value ≠ none

instance (s : UserSetting) : Decidable s.valueNonNull :=
  inferInstanceAs (Decidable (s.value ≠ none))

/-- Row of the tasks table (model.py, class Task): task_id autoincrement
primary key, user_id required foreign key to users, task_name and
duration_estimate required, task_description and duration_actual
optional. -/
structure Task where
  task_id : Nat
  user_id : Nat
  task_name : String
  task_description : Option String := none
  duration_estimate : Int
  duration_actual : Option Int := none
deriving Repr, DecidableEq

/-- Row of the gameplan_tasks table (model.py, class GameplanTask):
task_id is both the primary key and a foreign key to tasks (shared-key
one-to-one); user_id is a required foreign key to users; order,
start_time and end_time are unique columns.  Timestamps are modeled as
strings, since no claim depends on their structure. -/
structure GameplanTask where
  task_id : Nat
  user_id : Nat
  order : Int
  start_time : Option String := none
  end_time : Option String := none
deriving Repr, DecidableEq

/-- The database state: one list of rows per table the handlers touch,
plus the autoincrement counters for the surrogate keys the handlers
assign.  The categories and tasks_categories tables are declared in
model.py but no handler reads or writes them, so they are omitted. -/
structure DB where
  users : List User
  settings : List Setting
  users_settings : List UserSetting
  tasks : List Task
  gameplan_tasks : List GameplanTask
  next_user_id : Nat
  next_user_setting_id : Nat
  next_task_id : Nat
deriving Repr, DecidableEq

/-- Python exceptions that the handlers can raise or catch.
unmappedInstanceError models sqlalchemy.orm.exc.UnmappedInstanceError,
raised by db.session.delete(None); noResultFound and
multipleResultsFound model the exceptions of Query.one();
integrityError models sqlalchemy.exc.IntegrityError, raised by a commit
that violates a declared column constraint of the store. -/
inductive PyError where
  | attributeError (msg : String)
  | typeError (msg : String)
  | assertionError (msg : String)
  | unmappedInstanceError
  | noResultFound
  | multipleResultsFound
  | integrityError (msg : String)
  | unboundLocalError (name : String)
deriving Repr, DecidableEq

/-- What a handler hands back to Flask on the success path. -/
inductive Response where
  | redirect (path : String)
  | render (template : String)
deriving Repr, DecidableEq

/-- Either a normal value or a propagated Python exception. -/
inductive PyResult (α : Type) where
  | ok (a : α)
  | raised (e : PyError)
deriving Repr, DecidableEq

/-- Result of running a mutating handler: the database state after all
commits that happened, the flashed messages, and the response or the
exception that escaped the handler. -/
structure HandlerOutcome where
  db : DB
  flashes : List String
  result : PyResult Response
deriving Repr, DecidableEq

/-- True when the handler produced a response (redirect or render) rather
than letting an exception escape as a server error. -/
def HandlerOutcome.handled (o : HandlerOutcome) : Bool :=
  match o.result with
  | .ok _ => true
  | .raised _ => false

/-- GET / (server.py, show_index).  The branch `if session[user]:` is a
Python truthiness test, so both None and 0 take the else branch.  When
the session id is truthy, User.query.get looks the row up by primary
key; the local variable username is assigned only under `if user:`, so
when no row matches, render_template reads an unassigned local and
Python raises UnboundLocalError.  The returned string is the username
value handed to the template. -/
def show_index (db : DB) (sessionUser : Option Nat) : PyResult String :=
  match sessionUser with
  | some uid =>
    if uid ≠ 0 then
      match db.users.find? (fun u => u.user_id == uid) with
      | some u => .ok u.username
      | none => .raised (.unboundLocalError "username")
    else .ok "friend"
  | none => .ok "friend"

/-- Attribute access setting.setting_default_value (server.py line 64).
model.py declares only setting_id and setting_name on class Setting; the
class has no setting_default_value column or attribute, so the access
raises AttributeError. -/
def Setting.setting_default_value (_ : Setting) : PyResult String :=
  .raised (.attributeError "Setting object has no attribute setting_default_value")

/-- The per-setting loop of execute_user_registration (server.py lines
61 to 66): for each Setting row it builds a UserSetting for the new user
from the default value of the setting and commits it.  Reading the
default value is the attribute access modeled above; an exception there
escapes the handler, keeping every commit already made. -/
def seedSettings (user_id : Nat) (db : DB) : List Setting → HandlerOutcome
  | [] =>
    { db := db
      flashes := ["Thank you for registering! Now please login with your credentials."]
      result := .ok (.redirect "/") }
  | setting :: rest =>
    match setting.setting_default_value with
    | .raised e => { db := db, flashes := [], result := .raised e }
    | .ok v =>
      let new_user_setting : UserSetting :=
        { user_setting_id := db.next_user_setting_id
          user_id := user_id
          setting_id := setting.setting_id
          value := some v }
      seedSettings user_id
        { db with
          users_settings := db.users_settings ++ [new_user_setting]
          next_user_setting_id := db.next_user_setting_id + 1 }
        rest

/-- POST /register (server.py, execute_user_registration).  Mismatched
password and confirmation: flash and redirect back to /register, no row
touched.  Otherwise: create and commit the User (its user_id assigned by
autoincrement), then loop over the full settings catalog seeding one
UserSetting per Setting. -/
def execute_user_registration (db : DB) (username password confirm_password : String) :
    HandlerOutcome :=
  if password ≠ confirm_password then
    { db := db
      flashes := ["Your passwords do not match. Please try again."]
      result := .ok (.redirect "/register") }
  else
    let user : User := { user_id := db.next_user_id, username := username, password := password }
    let db1 : DB := { db with users := db.users ++ [user], next_user_id := db.next_user_id + 1 }
    seedSettings user.user_id db1 db1.settings

/-- POST /login (server.py, check_login_credentials).  Looks the user up
by username with Query.first(); on a match with equal password stores the
user id in the session, otherwise leaves the session untouched and
flashes the corresponding message.  Returns the new session value, the
flashes, and the response. -/
def check_login_credentials (db : DB) (sessionUser : Option Nat)
    (username password : String) : Option Nat × List String × Response :=
  match db.users.find? (fun u => u.username == username) with
  | some user =>
    if user.password == password then
      (some user.user_id, ["You are now logged in."], .redirect "/")
    else
      (sessionUser, ["Incorrect login information. Please try again."], .redirect "/")
  | none =>
    (sessionUser,
     ["Your username does not exist. Please try again or register as a new user."],
     .redirect "/")

/-- GET /logout (server.py, log_out_user): sets the session entry to None
unconditionally and redirects home. -/
def log_out_user (_sessionUser : Option Nat) : Option Nat × List String × Response :=
  (none, ["You are now logged out."], .redirect "/")

/-- GET /api/tasks (server.py, task_list): all Task rows whose user_id
equals the session user id.  When the session entry is None the SQL
comparison with NULL matches no row. -/
def task_list (db : DB) (sessionUser : Option Nat) : List Task :=
  db.tasks.filter (fun t => some t.user_id == sessionUser)

/-- Parameter names of the Task constructor as written in model.py line
92: def init taking self, task_name and duration_estimate; nothing
else. -/
def taskInitParams : List String := ["task_name", "duration_estimate"]

/-- Keyword argument names that server.py line 126 passes when it calls
Task(user_id=..., task_name=..., duration_estimate=...). -/
def addNewTaskKwargs : List String := ["user_id", "task_name", "duration_estimate"]

/-- Python call semantics for the Task constructor: a keyword argument
whose name is not a declared parameter makes the call raise TypeError
before the constructor body runs. -/
def callTaskInit (kwargs : List String) : PyResult Unit :=
  match kwargs.find? (fun k => !taskInitParams.contains k) with
  | some k => .raised (.typeError ("Task init got an unexpected keyword argument " ++ k))
  | none => .ok ()

/-- POST /api/task (server.py, add_new_task): reads the session user id,
task_name and duration_estimate, then calls the Task constructor with
the three keyword arguments of addNewTaskKwargs.  The branch after a
successful constructor call adds the new row and redirects; it is
unreachable because addNewTaskKwargs contains user_id, which is not a
parameter of the constructor. -/
def add_new_task (db : DB) (sessionUser : Option Nat)
    (task_name duration_estimate : String) : HandlerOutcome :=
  match callTaskInit addNewTaskKwargs with
  | .raised e => { db := db, flashes := [], result := .raised e }
  | .ok _ =>
    let new_task : Task :=
      { task_id := db.next_task_id
        user_id := sessionUser.getD 0
        task_name := task_name
        duration_estimate := (duration_estimate.toInt?).getD 0 }
    { db := { db with tasks := db.tasks ++ [new_task], next_task_id := db.next_task_id + 1 }
      flashes := []
      result := .ok (.redirect "/dashboard") }

/-- The body of the try block of delete_task_from_task_list:
Task.query.get(task_id) followed by db.session.delete and commit.  When
no row has that primary key, get returns None and db.session.delete(None)
raises UnmappedInstanceError.  When the row exists but a GameplanTask
still references it, the flush of the delete hits the one-to-one
relationship declared at model.py line 106 (no delete cascade), tries to
blank out the primary-key foreign key gameplan_tasks.task_id of the
child row, and SQLAlchemy raises AssertionError; nothing is committed.
Otherwise the commit removes the row with that primary key. -/
def deleteTaskCommit (db : DB) (task_id : Nat) : PyResult DB :=
  match db.tasks.find? (fun t => t.task_id == task_id) with
  | none => .raised .unmappedInstanceError
  | some t =>
    if db.gameplan_tasks.any (fun g => g.task_id == t.task_id) then
      .raised (.assertionError "Dependency rule tried to blank-out primary key column gameplan_tasks.task_id")
    else
      .ok { db with tasks := db.tasks.filter (fun x => x.task_id != t.task_id) }

/-- Flash message of the except AssertionError branch of
delete_task_from_task_list (server.py line 145). -/
def gameplanConflictMsg : String :=
  "That task is active in your gameplan! Remove that task from gameplan before deleting from templates."

/-- GET or DELETE /api/task/(task_id) (server.py,
delete_task_from_task_list): runs deleteTaskCommit inside try; only
AssertionError is caught (flashing gameplanConflictMsg); every other
exception propagates.  Both the success path and the caught path redirect
to /dashboard. -/
def delete_task_from_task_list (db : DB) (task_id : Nat) : HandlerOutcome :=
  match deleteTaskCommit db task_id with
  | .ok db1 => { db := db1, flashes := [], result := .ok (.redirect "/dashboard") }
  | .raised (.assertionError _) =>
    { db := db, flashes := [gameplanConflictMsg], result := .ok (.redirect "/dashboard") }
  | .raised e => { db := db, flashes := [], result := .raised e }

/-- Error message of the commit that tries to store NULL into the
users_settings.value column declared nullable=False at model.py line
76. -/
def valueNotNullViolationMsg : String :=
  "IntegrityError: null value in column value of relation users_settings violates not-null constraint"

/-- GET or PUT /api/setting/(user_setting_id) (server.py,
update_user_setting).  The new value is read with
request.values.get(user_setting_id): the parameter NAME looked up is the
path segment itself, the decimal string of the id, and when no parameter
has that name the lookup yields None.  Query.one() raises NoResultFound
with no matching row and MultipleResultsFound with several; on exactly
one match the value attribute of that row is assigned the looked-up
value and db.session.commit() runs.  The commit enforces the
nullable=False declaration on the value column (model.py line 76): when
the assigned value is None the emitted UPDATE sets value to NULL, the
store rejects it with a not-null violation, SQLAlchemy raises
IntegrityError, which no handler code catches, and nothing is
persisted; otherwise the overwritten row is committed and the handler
redirects to /settings. -/
def update_user_setting (db : DB) (params : List (String × String))
    (user_setting_id : Nat) : HandlerOutcome :=
  let new_value_user_setting : Option String :=
    (params.find? (fun p => p.1 == toString user_setting_id)).map (fun p => p.2)
  match db.users_settings.filter (fun s => s.user_setting_id == user_setting_id) with
  | [us] =>
    match new_value_user_setting with
    | none =>
      { db := db
        flashes := []
        result := .raised (.integrityError valueNotNullViolationMsg) }
    | some v =>
      let updated : UserSetting := { us with value := some v }
      { db := { db with
          users_settings := db.users_settings.map
            (fun s => if s.user_setting_id == user_setting_id then updated else s) }
        flashes := []
        result := .ok (.redirect "/settings") }
  | [] => { db := db, flashes := [], result := .raised .noResultFound }
  | _ => { db := db, flashes := [], result := .raised .multipleResultsFound }

/-- Ascending comparison on the order column of gameplan_tasks, the sort
key of the order_by clause at server.py line 187. -/
def gpOrderLE (a b : GameplanTask) : Prop := a.order ≤ b.order

instance : DecidableRel gpOrderLE :=
  fun a b => inferInstanceAs (Decidable (a.order ≤ b.order))

instance : IsTotal GameplanTask gpOrderLE :=
  ⟨fun a b => le_total a.order b.order⟩

instance : IsTrans GameplanTask gpOrderLE :=
  ⟨fun _ _ _ h1 h2 => le_trans h1 h2⟩

/-- The query GameplanTask.query.filter_by(user_id=...).order_by(
GameplanTask.order).all() of server.py line 187: the rows of that user,
sorted ascending by order. -/
def listGameplanTasksForUser (db : DB) (uid : Nat) : List GameplanTask :=
  List.insertionSort gpOrderLE (db.gameplan_tasks.filter (fun g => g.user_id == uid))

/-- Data handed to the dashboard template by
show_user_tasks_and_gameplan (server.py lines 211 to 214). -/
structure DashboardView where
  username : String
  gameplan_tasks : List GameplanTask
  tasks : List Task
  priority : Option String
  intention : Option String
  notes_reminders : Option String
deriving Repr, DecidableEq

/-- The three fixed-id setting lookups of the dashboard handler:
UserSetting.query.filter_by(user_id=..., setting_id=sid).first(), then
the value attribute when a row was found, else None. -/
def dashboardSettingValue (db : DB) (uid sid : Nat) : Option String :=
  (db.users_settings.find? (fun s => s.user_id == uid && s.setting_id == sid)).bind
    (fun s => s.value)

/-- GET /dashboard (server.py, show_user_tasks_and_gameplan): reads the
session user id, fetches the User row by primary key (reading username
from None raises AttributeError when the id matches no row, or when the
session entry is None), then gathers the gameplan rows ordered by order,
the task rows of the user, and the three settings with ids 1, 9, 10. -/
def show_user_tasks_and_gameplan (db : DB) (sessionUser : Option Nat) :
    PyResult DashboardView :=
  let user? : Option User :=
    match sessionUser with
    | some uid => db.users.find? (fun u => u.user_id == uid)
    | none => none
  match user? with
  | none => .raised (.attributeError "NoneType object has no attribute username")
  | some user =>
    .ok { username := user.username
          gameplan_tasks := listGameplanTasksForUser db user.user_id
          tasks := db.tasks.filter (fun t => t.user_id == user.user_id)
          priority := dashboardSettingValue db user.user_id 1
          intention := dashboardSettingValue db user.user_id 9
          notes_reminders := dashboardSettingValue db user.user_id 10 }

/-- GET or DELETE /api/gptask/(task_id) (server.py,
delete_task_from_gameplan): GameplanTask.query.get(task_id), then
db.session.delete and commit with no try block around them: a missing row
makes delete(None) raise UnmappedInstanceError, which propagates.  A
found row is deleted by its primary key task_id. -/
def delete_task_from_gameplan (db : DB) (task_id : Nat) : HandlerOutcome :=
  match db.gameplan_tasks.find? (fun g => g.task_id == task_id) with
  | none => { db := db, flashes := [], result := .raised .unmappedInstanceError }
  | some g =>
    { db := { db with
        gameplan_tasks := db.gameplan_tasks.filter (fun x => x.task_id != g.task_id) }
      flashes := []
      result := .ok (.redirect "/dashboard") }

/-- Session-changing events of the application: the login and logout
handlers are the only code that writes the session user entry. -/
inductive SessionEvent where
  | login (username password : String)
  | logout
deriving Repr, DecidableEq

/-- One session transition: the new session value produced by the
corresponding handler. -/
def sessionStep (db : DB) (s : Option Nat) : SessionEvent → Option Nat
  | .login u p => (check_login_credentials db s u p).1
  | .logout => (log_out_user s).1

/-- Session value after a sequence of login and logout events. -/
def runSession (db : DB) (s : Option Nat) : List SessionEvent → Option Nat
  | [] => s
  | e :: es => runSession db (sessionStep db s e) es

/-- The reachable session states: Anonymous (None), or Authenticated as
the id of a registered user. -/
def SessionValid (db : DB) (s : Option Nat) : Prop :=
  s = none ∨ ∃ u ∈ db.users, s = some u.user_id

/-- A concrete database used to instantiate the theorems: two users, a
one-entry settings catalog, one user setting, three tasks of user 1, two
of them scheduled in the gameplan with orders 2 and 1. -/
def db0 : DB :=
  { users := [{ user_id := 1, username := "alice", password := "pw1" },
              { user_id := 2, username := "bob", password := "pw2" }]
    settings := [{ setting_id := 1, setting_name := some "priority" }]
    users_settings := [{ user_setting_id := 1, user_id := 1, setting_id := 1, value := some "high" }]
    tasks := [{ task_id := 1, user_id := 1, task_name := "Shower", duration_estimate := 10 },
              { task_id := 2, user_id := 1, task_name := "Stretch", duration_estimate := 5 },
              { task_id := 3, user_id := 1, task_name := "Meditate", duration_estimate := 15 }]
    gameplan_tasks := [{ task_id := 2, user_id := 1, order := 2 },
                       { task_id := 3, user_id := 1, order := 1 }]
    next_user_id := 3
    next_user_setting_id := 2
    next_task_id := 4 }

/-- The empty database. -/
def dbEmpty : DB :=
  { users := [], settings := [], users_settings := [], tasks := [], gameplan_tasks := []
    next_user_id := 1, next_user_setting_id := 1, next_task_id := 1 }

/-- Deleting by a key that occurs exactly once: when the key values of a
list are distinct, filtering out the key of a member removes exactly
that one element. -/
theorem filter_key_ne_eq_erase {α : Type} [DecidableEq α] (key : α → Nat) (l : List α)
    (a : α) (hnd : (l.map key).Nodup) (ha : a ∈ l) :
    l.filter (fun x => key x != key a) = l.erase a := by
  induction l with
  | nil => cases ha
  | cons b t ih =>
    rw [List.map_cons, List.nodup_cons] at hnd
    rcases List.mem_cons.mp ha with h | h
    · subst h
      rw [List.erase_cons_head, List.filter_cons_of_neg (by simp)]
      refine List.filter_eq_self.mpr (fun x hx => ?_)
      refine bne_iff_ne.mpr (fun hk => ?_)
      exact hnd.1 (hk ▸ List.mem_map_of_mem key hx)
    · have hkey : key b ≠ key a := by
        intro hk
        exact hnd.1 (hk ▸ List.mem_map_of_mem key h)
      have hba : ¬(b == a) = true := by
        refine fun hb => hkey ?_
        rw [eq_of_beq hb]
      rw [List.erase_cons_tail hba, List.filter_cons, if_pos (bne_iff_ne.mpr hkey),
        ih hnd.2 h]

/-- C6: registering with password different from confirmation flashes the
mismatch message, redirects back to the registration form, and leaves
every table of the database unchanged. -/
theorem register_mismatched_passwords_no_rows (db : DB)
    (username password confirm_password : String) (h : password ≠ confirm_password) :
    execute_user_registration db username password confirm_password =
      { db := db
        flashes := ["Your passwords do not match. Please try again."]
        result := .ok (.redirect "/register") } := by
  unfold execute_user_registration
  rw [if_pos h]

/-- Witness for register_mismatched_passwords_no_rows at a concrete
mismatched pair. -/
theorem register_mismatched_passwords_no_rows_witness :
    ("pw1" : String) ≠ "pw2" ∧
    execute_user_registration db0 "carol" "pw1" "pw2" =
      { db := db0
        flashes := ["Your passwords do not match. Please try again."]
        result := .ok (.redirect "/register") } :=
  ⟨by decide, register_mismatched_passwords_no_rows db0 "carol" "pw1" "pw2" (by decide)⟩

/-- C1: with matching passwords and a nonempty settings catalog, the
registration handler commits the new User row, but then the first
iteration of the settings loop reads setting.setting_default_value, an
attribute class Setting does not declare, so AttributeError escapes: no
UserSetting row is created, diverging from the documented seeding of one
UserSetting per Setting with its default value. -/
theorem register_matching_passwords_attribute_error (db : DB) (username password : String)
    (h : db.settings ≠ []) :
    (execute_user_registration db username password password).db.users =
        db.users ++ [{ user_id := db.next_user_id, username := username, password := password }] ∧
    (execute_user_registration db username password password).db.users_settings =
        db.users_settings ∧
    (execute_user_registration db username password password).result =
      .raised (.attributeError "Setting object has no attribute setting_default_value") := by
  cases hs : db.settings with
  | nil => exact absurd hs h
  | cons s rest =>
    unfold execute_user_registration
    rw [if_neg (by simp)]
    simp [hs, seedSettings, Setting.setting_default_value]

/-- Witness for register_matching_passwords_attribute_error on the
concrete catalog of db0. -/
theorem register_matching_passwords_attribute_error_witness :
    db0.settings ≠ [] ∧
    ((execute_user_registration db0 "carol" "pw3" "pw3").db.users =
        db0.users ++ [{ user_id := 3, username := "carol", password := "pw3" }] ∧
      (execute_user_registration db0 "carol" "pw3" "pw3").db.users_settings =
        db0.users_settings ∧
      (execute_user_registration db0 "carol" "pw3" "pw3").result =
        .raised (.attributeError "Setting object has no attribute setting_default_value")) :=
  ⟨by decide, register_matching_passwords_attribute_error db0 "carol" "pw3" (by decide)⟩

/-- C2: every add-task request raises TypeError and creates no row,
because the handler calls the Task constructor with a user_id keyword
argument that the constructor signature of model.py does not declare;
the claimed creation of one Task row never happens. -/
theorem add_new_task_type_error (db : DB) (sessionUser : Option Nat)
    (task_name duration_estimate : String) :
    add_new_task db sessionUser task_name duration_estimate =
      { db := db
        flashes := []
        result := .raised (.typeError "Task init got an unexpected keyword argument user_id") } :=
  rfl

/-- C3: deleting an existing task that a GameplanTask still references
leaves the whole database unchanged and flashes the conflict message
(the AssertionError of the flush is caught); deleting an existing task
with no GameplanTask removes exactly that row and nothing else.  The
Nodup hypothesis is the primary-key uniqueness of the tasks table. -/
theorem delete_task_conflict_or_remove (db : DB) (task_id : Nat) (t : Task)
    (hnd : (db.tasks.map Task.task_id).Nodup)
    (ht : db.tasks.find? (fun x => x.task_id == task_id) = some t) :
    (db.gameplan_tasks.any (fun g => g.task_id == task_id) = true →
       delete_task_from_task_list db task_id =
         { db := db, flashes := [gameplanConflictMsg], result := .ok (.redirect "/dashboard") }) ∧
    (db.gameplan_tasks.any (fun g => g.task_id == task_id) = false →
       delete_task_from_task_list db task_id =
         { db := { db with tasks := db.tasks.erase t }
           flashes := [], result := .ok (.redirect "/dashboard") }) := by
  have htid : t.task_id = task_id := by
    have := List.find?_some ht
    simpa using this
  have hmem : t ∈ db.tasks := List.mem_of_find?_eq_some ht
  unfold delete_task_from_task_list deleteTaskCommit
  rw [ht]
  dsimp only
  constructor
  · intro hgp
    rw [← htid] at hgp
    rw [hgp]
    rfl
  · intro hgp
    rw [← htid] at hgp
    rw [hgp, filter_key_ne_eq_erase Task.task_id db.tasks t hnd hmem]
    rfl

/-- Witness for delete_task_conflict_or_remove: in db0, task 2 is in the
gameplan (conflict branch) and the database is untouched. -/
theorem delete_task_conflict_or_remove_witness :
    (db0.tasks.map Task.task_id).Nodup ∧
    delete_task_from_task_list db0 2 =
      { db := db0, flashes := [gameplanConflictMsg], result := .ok (.redirect "/dashboard") } :=
  ⟨by decide,
   (delete_task_conflict_or_remove db0 2
      { task_id := 2, user_id := 1, task_name := "Stretch", duration_estimate := 5 }
      (by decide) (by decide)).1 (by decide)⟩

/-- One session transition keeps the session Anonymous or Authenticated
as a registered user id. -/
theorem sessionStep_valid (db : DB) (s : Option Nat) (e : SessionEvent)
    (h : SessionValid db s) : SessionValid db (sessionStep db s e) := by
  cases e with
  | logout => exact Or.inl rfl
  | login u p =>
    show SessionValid db (check_login_credentials db s u p).1
    unfold check_login_credentials
    cases hf : db.users.find? (fun x => x.username == u) with
    | none => exact h
    | some usr =>
      dsimp only
      by_cases hp : (usr.password == p) = true
      · rw [if_pos hp]
        exact Or.inr ⟨usr, List.mem_of_find?_eq_some hf, rfl⟩
      · rw [if_neg hp]
        exact h

/-- Any sequence of login and logout events keeps the session among the
valid states. -/
theorem runSession_valid (db : DB) (s : Option Nat) (evs : List SessionEvent)
    (h : SessionValid db s) : SessionValid db (runSession db s evs) := by
  induction evs generalizing s with
  | nil => exact h
  | cons e es ih => exact ih _ (sessionStep_valid db s e h)

/-- C4: a login sets the session to the id of the found user exactly when
the stored password equals the submitted one, leaves the session value
untouched on a wrong password or unknown username, logout always resets
the session to Anonymous, and every event sequence starting Anonymous
stays within the states Anonymous or Authenticated-as-a-registered-user. -/
theorem login_logout_state_machine (db : DB) (s : Option Nat)
    (username password : String) (evs : List SessionEvent) :
    (∀ u, db.users.find? (fun x => x.username == username) = some u →
       (check_login_credentials db s username password).1 =
         (if u.password == password then some u.user_id else s)) ∧
    (db.users.find? (fun x => x.username == username) = none →
       (check_login_credentials db s username password).1 = s) ∧
    (log_out_user s).1 = none ∧
    SessionValid db (runSession db none evs) := by
  refine ⟨?_, ?_, rfl, runSession_valid db none evs (Or.inl rfl)⟩
  · intro u hu
    unfold check_login_credentials
    rw [hu]
    dsimp only
    by_cases hp : (u.password == password) = true
    · rw [if_pos hp, if_pos hp]
    · rw [if_neg hp, if_neg hp]
  · intro hn
    unfold check_login_credentials
    rw [hn]

/-- Witness for login_logout_state_machine: logging alice in with the
right password authenticates as user 1, and a login-then-logout run from
Anonymous ends in a valid state. -/
theorem login_logout_state_machine_witness :
    (check_login_credentials db0 none "alice" "pw1").1 = some 1 ∧
    SessionValid db0 (runSession db0 none [SessionEvent.login "alice" "pw1", SessionEvent.logout]) :=
  ⟨(login_logout_state_machine db0 none "alice" "pw1" []).1
      { user_id := 1, username := "alice", password := "pw1" } (by decide),
   (login_logout_state_machine db0 none "alice" "pw1"
      [SessionEvent.login "alice" "pw1", SessionEvent.logout]).2.2.2⟩

/-- C5 counterexample: with an empty database, both delete handlers let
an exception escape (handled = false) instead of recovering with a
user-visible message or a not-found response. -/
theorem delete_missing_id_counterexample :
    (delete_task_from_task_list dbEmpty 1).handled = false ∧
    (delete_task_from_gameplan dbEmpty 1).handled = false := by decide

/-- C5 amended: a delete request whose id matches no row changes no
stored state, but the handler propagates UnmappedInstanceError (an
unhandled server error) rather than producing a user-visible message or
a not-found response. -/
theorem delete_missing_id_unhandled_no_change (db : DB) (tid gid : Nat)
    (h1 : db.tasks.find? (fun t => t.task_id == tid) = none)
    (h2 : db.gameplan_tasks.find? (fun g => g.task_id == gid) = none) :
    delete_task_from_task_list db tid =
      { db := db, flashes := [], result := .raised .unmappedInstanceError } ∧
    delete_task_from_gameplan db gid =
      { db := db, flashes := [], result := .raised .unmappedInstanceError } := by
  constructor
  · unfold delete_task_from_task_list deleteTaskCommit
    rw [h1]
  · unfold delete_task_from_gameplan
    rw [h2]

/-- Witness for delete_missing_id_unhandled_no_change on the empty
database. -/
theorem delete_missing_id_unhandled_no_change_witness :
    dbEmpty.tasks.find? (fun t => t.task_id == 1) = none ∧
    dbEmpty.gameplan_tasks.find? (fun g => g.task_id == 1) = none ∧
    (delete_task_from_task_list dbEmpty 1 =
        { db := dbEmpty, flashes := [], result := .raised .unmappedInstanceError } ∧
      delete_task_from_gameplan dbEmpty 1 =
        { db := dbEmpty, flashes := [], result := .raised .unmappedInstanceError }) :=
  ⟨by decide, by decide, delete_missing_id_unhandled_no_change dbEmpty 1 1 (by decide) (by decide)⟩

/-- C7: whenever the dashboard handler succeeds, the gameplan list it
hands to the template is sorted ascending by the order column and is a
permutation of exactly the GameplanTask rows of that user. -/
theorem gameplan_listing_sorted (db : DB) (uid : Nat) (view : DashboardView)
    (h : show_user_tasks_and_gameplan db (some uid) = .ok view) :
    view.gameplan_tasks.Sorted gpOrderLE ∧
    view.gameplan_tasks.Perm (db.gameplan_tasks.filter (fun g => g.user_id == uid)) := by
  unfold show_user_tasks_and_gameplan at h
  dsimp only at h
  cases hf : db.users.find? (fun u => u.user_id == uid) with
  | none =>
    rw [hf] at h
    cases h
  | some user =>
    rw [hf] at h
    have huid : user.user_id = uid := by
      have := List.find?_some hf
      simpa using this
    cases h
    refine ⟨List.sorted_insertionSort gpOrderLE _, ?_⟩
    show (listGameplanTasksForUser db user.user_id).Perm _
    rw [huid]
    exact List.perm_insertionSort gpOrderLE _

/-- The dashboard view of user 1 in db0: gameplan entries reordered
ascending by order. -/
def view0 : DashboardView :=
  { username := "alice"
    gameplan_tasks := [{ task_id := 3, user_id := 1, order := 1 },
                       { task_id := 2, user_id := 1, order := 2 }]
    tasks := db0.tasks
    priority := some "high"
    intention := none
    notes_reminders := none }

/-- Witness for gameplan_listing_sorted: in db0 the two gameplan rows of
user 1 come back in order 1 then 2. -/
theorem gameplan_listing_sorted_witness :
    show_user_tasks_and_gameplan db0 (some 1) = .ok view0 ∧
    (view0.gameplan_tasks.Sorted gpOrderLE ∧
      view0.gameplan_tasks.Perm (db0.gameplan_tasks.filter (fun g => g.user_id == 1))) :=
  ⟨by decide, gameplan_listing_sorted db0 1 view0 (by decide)⟩

/-- C8 counterexample: a session holding id 1 over a database with no
users makes the home view raise UnboundLocalError instead of greeting
with the default name friend, refuting the claim that every case other
than a logged-in user shows the friend greeting. -/
theorem home_greeting_counterexample :
    show_index dbEmpty (some 1) ≠ .ok "friend" ∧
    show_index dbEmpty (some 1) = .raised (.unboundLocalError "username") := by decide

/-- C8 amended: the home greeting is the username when the session holds
the id of a stored user, friend when the session holds no user, but a
session id matching no stored User makes the handler read the unassigned
local variable username and raise UnboundLocalError instead of falling
back to friend. -/
theorem home_greeting_amended (db : DB) (s : Option Nat) :
    (s = none → show_index db s = .ok "friend") ∧
    (∀ uid u, s = some uid → uid ≠ 0 →
       db.users.find? (fun x => x.user_id == uid) = some u →
       show_index db s = .ok u.username) ∧
    (∀ uid, s = some uid → uid ≠ 0 →
       db.users.find? (fun x => x.user_id == uid) = none →
       show_index db s = .raised (.unboundLocalError "username")) := by
  refine ⟨?_, ?_, ?_⟩
  · rintro rfl
    rfl
  · rintro uid u rfl h0 hf
    unfold show_index
    dsimp only
    rw [if_pos h0, hf]
  · rintro uid rfl h0 hf
    unfold show_index
    dsimp only
    rw [if_pos h0, hf]

/-- Witness for home_greeting_amended: user 1 of db0 is greeted by
username. -/
theorem home_greeting_amended_witness :
    show_index db0 (some 1) = .ok "alice" :=
  (home_greeting_amended db0 (some 1)).2.1 1
    { user_id := 1, username := "alice", password := "pw1" } rfl (by decide) (by decide)

/-- C9: removing a scheduled task deletes exactly the GameplanTask row
with that task id, and the users, settings, users_settings and tasks
tables (in particular the referenced Task row) are untouched.  The Nodup
hypothesis is the primary-key uniqueness of gameplan_tasks. -/
theorem gameplan_delete_frame (db : DB) (task_id : Nat) (g : GameplanTask)
    (hnd : (db.gameplan_tasks.map GameplanTask.task_id).Nodup)
    (hg : db.gameplan_tasks.find? (fun x => x.task_id == task_id) = some g) :
    delete_task_from_gameplan db task_id =
      { db := { db with gameplan_tasks := db.gameplan_tasks.erase g }
        flashes := [], result := .ok (.redirect "/dashboard") } ∧
    (delete_task_from_gameplan db task_id).db.users = db.users ∧
    (delete_task_from_gameplan db task_id).db.tasks = db.tasks ∧
    (delete_task_from_gameplan db task_id).db.settings = db.settings ∧
    (delete_task_from_gameplan db task_id).db.users_settings = db.users_settings := by
  have hmem : g ∈ db.gameplan_tasks := List.mem_of_find?_eq_some hg
  have hmain : delete_task_from_gameplan db task_id =
      { db := { db with gameplan_tasks := db.gameplan_tasks.erase g }
        flashes := [], result := .ok (.redirect "/dashboard") } := by
    unfold delete_task_from_gameplan
    rw [hg]
    dsimp only
    rw [filter_key_ne_eq_erase GameplanTask.task_id db.gameplan_tasks g hnd hmem]
  refine ⟨hmain, ?_, ?_, ?_, ?_⟩ <;> rw [hmain]

/-- Witness for gameplan_delete_frame: deleting gameplan entry 2 from db0
removes only that row. -/
theorem gameplan_delete_frame_witness :
    (db0.gameplan_tasks.map GameplanTask.task_id).Nodup ∧
    delete_task_from_gameplan db0 2 =
      { db := { db0 with gameplan_tasks := db0.gameplan_tasks.erase { task_id := 2, user_id := 1, order := 2 } }
        flashes := [], result := .ok (.redirect "/dashboard") } :=
  ⟨by decide,
   (gameplan_delete_frame db0 2 { task_id := 2, user_id := 1, order := 2 }
      (by decide) (by decide)).1⟩

/-- C10 counterexample: updating setting row 1 of db0 with a request
carrying no parameter named 1 does NOT overwrite the stored value with
null: the database is unchanged, every stored row still satisfies the
non-null declaration, and the handler produces no response at all (an
exception escapes), refuting the claimed null overwrite. -/
theorem update_setting_null_overwrite_counterexample :
    (update_user_setting db0 [] 1).db = db0 ∧
    (∀ us2 ∈ (update_user_setting db0 [] 1).db.users_settings, us2.valueNonNull) ∧
    (update_user_setting db0 [] 1).handled = false := by decide

/-- C10 amended: the handler reads the new value from the request
parameter whose name equals the decimal user_setting_id path segment
itself, not from a fixed field name.  When no parameter of that name is
supplied, the looked-up value is None and the commit of NULL into the
value column declared nullable=False raises an uncaught IntegrityError:
the stored value is NOT overwritten (no table changes) and no redirect
is produced.  When a parameter of that name is supplied, its value
overwrites the single matching row and the handler redirects to
/settings. -/
theorem update_setting_absent_param_integrity_error (db : DB)
    (params : List (String × String)) (usid : Nat) (us : UserSetting)
    (hone : db.users_settings.filter (fun s => s.user_setting_id == usid) = [us]) :
    (params.find? (fun p => p.1 == toString usid) = none →
      update_user_setting db params usid =
        { db := db, flashes := []
          result := .raised (.integrityError valueNotNullViolationMsg) }) ∧
    (∀ pr, params.find? (fun p => p.1 == toString usid) = some pr →
      update_user_setting db params usid =
        { db := { db with
            users_settings := db.users_settings.map
              (fun s => if s.user_setting_id == usid then { us with value := some pr.2 } else s) }
          flashes := [], result := .ok (.redirect "/settings") }) := by
  constructor
  · intro habsent
    unfold update_user_setting
    rw [hone, habsent]
    rfl
  · intro pr hfound
    unfold update_user_setting
    rw [hone, hfound]
    rfl

/-- Witness for update_setting_absent_param_integrity_error: on db0 with
setting row 1, an empty parameter list makes the request fail with
IntegrityError and change nothing, while a parameter literally named 1
does update the value. -/
theorem update_setting_absent_param_integrity_error_witness :
    db0.users_settings.filter (fun s => s.user_setting_id == 1) =
      [{ user_setting_id := 1, user_id := 1, setting_id := 1, value := some "high" }] ∧
    update_user_setting db0 [] 1 =
      { db := db0, flashes := []
        result := .raised (.integrityError valueNotNullViolationMsg) } ∧
    update_user_setting db0 [("1", "low")] 1 =
      { db := { db0 with
          users_settings := db0.users_settings.map
            (fun s => if s.user_setting_id == 1 then
                { user_setting_id := 1, user_id := 1, setting_id := 1, value := some "low" }
              else s) }
        flashes := [], result := .ok (.redirect "/settings") } :=
  ⟨by decide,
   (update_setting_absent_param_integrity_error db0 [] 1
      { user_setting_id := 1, user_id := 1, setting_id := 1, value := some "high" }
      (by decide)).1 (by decide),
   (update_setting_absent_param_integrity_error db0 [("1", "low")] 1
      { user_setting_id := 1, user_id := 1, setting_id := 1, value := some "high" }
      (by decide)).2 ("1", "low") (by decide)⟩

end MindfulMornings
